import Mathlib

/-!
Shallow embedding of the DissolveAI react frontend
(src/react-frontend/src/components/ChatUI.jsx, Dialog.jsx, Sidebar.jsx).

The React components are modelled as pure state-transition functions over an
explicit application state.  The shared AppContext fields and the per-component
local state (chat input, loading flags, progress step) are collected in one
state record; asynchronous backend calls are modelled by passing the backend
response (or a response function) as an explicit argument, and the value sent
to the backend is returned alongside the new state so that theorems can speak
about the payload of each request.
-/

namespace DissolveAI

/-- A chat message as stored in chatMessages: a role ("user"/"assistant") and text. -/
structure Message where
  role : String
  text : String
deriving DecidableEq, Repr

/-- An issue as held in the issues list (id and title are what the UI uses). -/
structure Issue where
  id : Nat
  title : String
deriving DecidableEq, Repr

/-- The object literal passed to backend.askAI in ChatUI.jsx lines 27-31:
    exactly the fields issue_id, prompt and model. -/
structure AskAIPayload where
  issue_id : Option Nat
  prompt : String
  model : String
deriving DecidableEq, Repr

/-- The field names of the askAI object literal, as written in the source. -/
def askAIFieldNames : List String := ["issue_id", "prompt", "model"]

/-- Outcome of an awaited backend.askAI call: a resolved response with
    res.data.response, or a rejection carrying an error kind. -/
inductive AskAIResult where
  | ok (response : String)
  | err (errorKind : String)
deriving DecidableEq, Repr

/-- The object literal passed to backend.processRepo in Dialog.jsx line 139:
    the trimmed url and the selected model. -/
structure ProcessRepoPayload where
  url : String
  model : String
deriving DecidableEq, Repr

/-- The data of a resolved processRepo response; issues and summary may be
    absent (undefined/null), modelled with Option. -/
structure ProcessRepoData where
  issues : Option (List Issue)
  summary : Option String
deriving DecidableEq, Repr

/-- Outcome of an awaited backend.processRepo call. -/
inductive ProcessRepoResult where
  | ok (data : ProcessRepoData)
  | err (message : String)
deriving DecidableEq, Repr

/-- JavaScript res.data.issues || []: an absent (undefined/null) field falls
    back to []; any array, empty or not, is truthy and is kept as is. -/
def jsOrIssues : Option (List Issue) → List Issue
  | none => []
  | some l => l

/-- JavaScript res.data.summary || "": an absent field falls back to ""; a
    present string is falsy exactly when it is empty, in which case the
    fallback "" is produced (extensionally the same string). -/
def jsOrSummary : Option String → String
  | none => ""
  | some s => if s = "" then "" else s

/-- The fixed PROCESSING_STEPS list of Dialog.jsx lines 101-109. -/
def PROCESSING_STEPS : List String :=
  [ "Processing Request..."
  , "Cloning Repository..."
  , "Fetching Codes & Understanding..."
  , "Cleaning Data & Preprocessing..."
  , "Analyzing Contextual Relations..."
  , "Fetching Issues..."
  , "Creating Knowledge Base..." ]

/-- One tick of the stepInterval callback of Dialog.jsx lines 131-136:
    increment currentStep while below PROCESSING_STEPS.length - 1, else keep. -/
def stepTick (prev : Nat) : Nat :=
  if prev < PROCESSING_STEPS.length - 1 then prev + 1 else prev

/-- The application state: the shared AppContext fields plus the local state of
    ChatUI (input, chat loading) and of Dialog (dialog loading, currentStep). -/
structure AppState where
  selectedModel : String
  repoUrl : String
  issues : List Issue
  selectedIssue : Option Nat
  summary : String
  chatMessages : List Message
  chatInput : String
  chatLoading : Bool
  dialogLoading : Bool
  currentStep : Nat
deriving DecidableEq, Repr

/-- setSelectedModel, as invoked by the model CustomSelect onChange in
    Sidebar.jsx line 130 and Dialog.jsx line 191. -/
def setSelectedModel (st : AppState) (m : String) : AppState :=
  { st with selectedModel := m }

/-- JavaScript String.prototype.trim: remove whitespace from both ends of the
    string (modelled structurally over the character list so that concrete
    evaluations reduce in the kernel). -/
def jsTrim (s : String) : String :=
  String.mk (((s.data.dropWhile Char.isWhitespace).reverse.dropWhile
    Char.isWhitespace).reverse)

/-- sendMessage of ChatUI.jsx lines 15-46, run to completion against a backend
    response function.  Returns the final state and the payload sent to
    backend.askAI (none when the blank-input guard returned early).
    On a resolved call the assistant message holds res.data.response; on a
    rejected call the catch block appends the fixed text "Error occurred". -/
def sendMessage (st : AppState) (backendAskAI : AskAIPayload → AskAIResult) :
    AppState × Option AskAIPayload :=
  if jsTrim st.chatInput = "" then (st, none)
  else
    match backendAskAI { issue_id := st.selectedIssue, prompt := st.chatInput
                       , model := st.selectedModel } with
    | .ok resp =>
        ({ st with
            chatMessages := st.chatMessages ++
              [ { role := "user", text := st.chatInput }
              , { role := "assistant", text := resp } ]
          , chatInput := ""
          , chatLoading := false },
         some { issue_id := st.selectedIssue, prompt := st.chatInput
              , model := st.selectedModel })
    | .err _ =>
        ({ st with
            chatMessages := st.chatMessages ++
              [ { role := "user", text := st.chatInput }
              , { role := "assistant", text := "Error occurred" } ]
          , chatInput := ""
          , chatLoading := false },
         some { issue_id := st.selectedIssue, prompt := st.chatInput
              , model := st.selectedModel })

/-- fetchRepo of Dialog.jsx lines 123-150, run to completion against a backend
    response function.  Returns the final state and the payload sent to
    backend.processRepo (none when the blank-url guard returned early).
    Before the await, loading is set, currentStep reset to 0, issues cleared
    and selectedIssue reset; on success issues and summary are set from the
    response with the JavaScript || fallbacks; the finally block clears
    loading and resets currentStep to 0. -/
def fetchRepo (st : AppState)
    (backendProcessRepo : ProcessRepoPayload → ProcessRepoResult) :
    AppState × Option ProcessRepoPayload :=
  if jsTrim st.repoUrl = "" then (st, none)
  else
    match backendProcessRepo { url := jsTrim st.repoUrl, model := st.selectedModel } with
    | .ok data =>
        ({ st with
            issues := jsOrIssues data.issues
          , selectedIssue := none
          , summary := jsOrSummary data.summary
          , dialogLoading := false
          , currentStep := 0 },
         some { url := jsTrim st.repoUrl, model := st.selectedModel })
    | .err _ =>
        ({ st with
            issues := []
          , selectedIssue := none
          , dialogLoading := false
          , currentStep := 0 },
         some { url := jsTrim st.repoUrl, model := st.selectedModel })

/-- A select option of the custom dropdowns: a value and a display label. -/
structure SelectOption where
  value : String
  label : String
deriving DecidableEq, Repr

/-- modelOptions of Dialog.jsx lines 155-158. -/
def dialogModelOptions : List SelectOption :=
  [ { value := "gemini", label := "Gemini 1.5 Pro" }
  , { value := "groq", label := "ChatGPT-OSS" } ]

/-- modelOptions of Sidebar.jsx lines 77-80. -/
def sidebarModelOptions : List SelectOption :=
  [ { value := "gemini", label := "Gemini 1.5 Pro" }
  , { value := "groq", label := "ChatGPT-OSS" } ]

/-- Clicking the i-th entry of a CustomSelect list invokes onChange with that
    entry's value (Dialog.jsx lines 60-65, Sidebar.jsx lines 43-48). -/
def selectClickValue (options : List SelectOption) (i : Nat) : Option String :=
  (options.get? i).map SelectOption.value

/-- Run-state for the Fetch button of Dialog.jsx: the loading flag and the
    number of fetchRepo invocations currently in flight. -/
structure FetchRunState where
  loading : Bool
  inFlight : Nat
deriving DecidableEq, Repr

/-- Initial Dialog state: useState(false) for loading, nothing in flight. -/
def fetchRunInit : FetchRunState := { loading := false, inFlight := 0 }

/-- Events of the Fetch button.  The button carries disabled when loading is
    true (Dialog.jsx line 208), so a click can start fetchRepo only from a
    state with loading = false; a click with a blank url alerts and returns
    before setLoading (line 124); an in-flight call eventually settles and its
    finally block clears loading (lines 145-149). -/
inductive FetchEvent : FetchRunState → FetchRunState → Prop
  | click (s : FetchRunState) (h : s.loading = false) :
      FetchEvent s { loading := true, inFlight := s.inFlight + 1 }
  | blankClick (s : FetchRunState) (h : s.loading = false) : FetchEvent s s
  | settle (s : FetchRunState) (h : 0 < s.inFlight) :
      FetchEvent s { loading := false, inFlight := s.inFlight - 1 }

/-- The states the Dialog fetch machinery can reach from its initial state. -/
inductive FetchRun : FetchRunState → Prop
  | init : FetchRun fetchRunInit
  | next (s t : FetchRunState) : FetchRun s → FetchEvent s t → FetchRun t

/-- The values currentStep can reach: it starts at 0 (useState(0)), each
    interval tick applies stepTick, and fetchRepo resets it to 0 at the start
    and in the finally block. -/
inductive StepReachable : Nat → Prop
  | start : StepReachable 0
  | tick (n : Nat) : StepReachable n → StepReachable (stepTick n)
  | reset (n : Nat) : StepReachable n → StepReachable 0

/-- Modelled from the spec: the payload field names that would denote the
    session/repository key the spec requires on every query operation
    ("a query operation taking session key + issue selection + question").
    No backend query-schema file is part of the repository, so the notion of
    a session-key field is taken from the spec's words. -/
def isSessionKeyFieldName (f : String) : Bool :=
  f = "session_key" || f = "sessionKey" || f = "session" || f = "session_id" ||
  f = "sessionId" || f = "key" || f = "repo" || f = "repoUrl" || f = "repo_url" ||
  f = "repository" || f = "url"

/-- A concrete application state used by concrete evaluations: a repository
    was ingested (one issue, selected, a cached summary) and the chat input
    holds only whitespace. -/
def stBlankInput : AppState :=
  { selectedModel := "gemini"
  , repoUrl := "https://github.com/u/r"
  , issues := [{ id := 1, title := "bug" }]
  , selectedIssue := some 1
  , summary := "a summary"
  , chatMessages := [{ role := "user", text := "hi" }]
  , chatInput := "  "
  , chatLoading := false
  , dialogLoading := false
  , currentStep := 0 }

/-- The same concrete state with a real question typed in the chat input. -/
def stChat : AppState := { stBlankInput with chatInput := "why does it fail" }

/-- A backend whose askAI always resolves with a fixed response. -/
def bkOk : AskAIPayload → AskAIResult := fun _ => .ok "Because of X"

/-- A backend whose askAI always rejects with GenerationTimeoutError. -/
def bkTimeout : AskAIPayload → AskAIResult := fun _ => .err "GenerationTimeoutError"

/-- A backend whose processRepo always resolves with one issue and a summary. -/
def bkRepoOk : ProcessRepoPayload → ProcessRepoResult :=
  fun _ => .ok { issues := some [{ id := 1, title := "bug" }], summary := some "a summary" }

/-- A backend whose processRepo always rejects. -/
def bkRepoErr : ProcessRepoPayload → ProcessRepoResult := fun _ => .err "Network Error"

/-! ## Theorems -/

/-- The payload sent by sendMessage: none under the blank-input guard, else
    exactly the issue selection, the typed question and the selected model. -/
theorem sendMessage_payload (st : AppState) (bk : AskAIPayload → AskAIResult) :
    (sendMessage st bk).2 =
      if jsTrim st.chatInput = "" then none
      else some { issue_id := st.selectedIssue, prompt := st.chatInput
                , model := st.selectedModel } := by
  unfold sendMessage
  split
  · rfl
  · cases bk _ <;> rfl

/-- The chat log produced by sendMessage on a rejected backend call. -/
theorem sendMessage_err_log (st : AppState) (bk : AskAIPayload → AskAIResult)
    (kind : String) (hin : ¬ jsTrim st.chatInput = "")
    (hbk : bk { issue_id := st.selectedIssue, prompt := st.chatInput
              , model := st.selectedModel } = .err kind) :
    (sendMessage st bk).1.chatMessages =
      st.chatMessages ++
        [ { role := "user", text := st.chatInput }
        , { role := "assistant", text := "Error occurred" } ] := by
  unfold sendMessage
  rw [if_neg hin, hbk]

/-- C9: sendMessage is a no-op on blank input: when the chat input trims to
    the empty string, no backend call is issued and the whole state (chat log,
    input field, loading flag) is left unchanged. -/
theorem c9_blank_input_noop (st : AppState) (bk : AskAIPayload → AskAIResult)
    (h : jsTrim st.chatInput = "") : sendMessage st bk = (st, none) := by
  unfold sendMessage
  rw [if_pos h]

/-- Witness for c9_blank_input_noop at a concrete whitespace-only input. -/
theorem c9_blank_input_noop_witness :
    jsTrim stBlankInput.chatInput = "" ∧ sendMessage stBlankInput bkOk = (stBlankInput, none) :=
  ⟨by decide, c9_blank_input_noop stBlankInput bkOk (by decide)⟩

/-- C8: on a successful sendMessage the chat log is extended by exactly one
    user message (the submitted text) followed by one assistant message (the
    backend response); the prior log is preserved unchanged as the initial
    segment of the new log. -/
theorem c8_chat_log_append_only (st : AppState) (bk : AskAIPayload → AskAIResult)
    (resp : String) (hin : ¬ jsTrim st.chatInput = "")
    (hbk : bk { issue_id := st.selectedIssue, prompt := st.chatInput
              , model := st.selectedModel } = .ok resp) :
    (sendMessage st bk).1.chatMessages =
      st.chatMessages ++
        [ { role := "user", text := st.chatInput }
        , { role := "assistant", text := resp } ] ∧
    List.take st.chatMessages.length (sendMessage st bk).1.chatMessages =
      st.chatMessages := by
  have hlog : (sendMessage st bk).1.chatMessages =
      st.chatMessages ++
        [ { role := "user", text := st.chatInput }
        , { role := "assistant", text := resp } ] := by
    unfold sendMessage
    rw [if_neg hin, hbk]
  refine ⟨hlog, ?_⟩
  rw [hlog, List.take_left]

/-- Witness for c8_chat_log_append_only at a concrete question and backend. -/
theorem c8_chat_log_append_only_witness :
    (¬ jsTrim stChat.chatInput = "") ∧
    bkOk { issue_id := stChat.selectedIssue, prompt := stChat.chatInput
         , model := stChat.selectedModel } = .ok "Because of X" ∧
    ((sendMessage stChat bkOk).1.chatMessages =
      stChat.chatMessages ++
        [ { role := "user", text := stChat.chatInput }
        , { role := "assistant", text := "Because of X" } ] ∧
     List.take stChat.chatMessages.length (sendMessage stChat bkOk).1.chatMessages =
      stChat.chatMessages) :=
  ⟨by decide, rfl, c8_chat_log_append_only stChat bkOk "Because of X" (by decide) rfl⟩

/-- C1 counterexample: with a backend that rejects with GenerationTimeoutError,
    the message shown to the user is the fixed placeholder "Error occurred",
    which is not the error kind. -/
theorem c1_counterexample :
    (sendMessage stChat bkTimeout).1.chatMessages.getLast? =
      some { role := "assistant", text := "Error occurred" } ∧
    "Error occurred" ≠ "GenerationTimeoutError" := by decide

/-- C1 amended: on a rejected backend.askAI call, sendMessage appends a fixed
    assistant message with text "Error occurred", regardless of the error
    kind of the rejection; the user-visible result is a non-empty fixed
    placeholder and does not carry the error kind. -/
theorem c1_error_placeholder (st : AppState) (bk : AskAIPayload → AskAIResult)
    (kind : String) (hin : ¬ jsTrim st.chatInput = "")
    (hbk : bk { issue_id := st.selectedIssue, prompt := st.chatInput
              , model := st.selectedModel } = .err kind) :
    (sendMessage st bk).1.chatMessages =
      st.chatMessages ++
        [ { role := "user", text := st.chatInput }
        , { role := "assistant", text := "Error occurred" } ] ∧
    "Error occurred" ≠ "" :=
  ⟨sendMessage_err_log st bk kind hin hbk, by decide⟩

/-- Witness for c1_error_placeholder at a concrete rejecting backend. -/
theorem c1_error_placeholder_witness :
    (¬ jsTrim stChat.chatInput = "") ∧
    bkTimeout { issue_id := stChat.selectedIssue, prompt := stChat.chatInput
              , model := stChat.selectedModel } = .err "GenerationTimeoutError" ∧
    ((sendMessage stChat bkTimeout).1.chatMessages =
      stChat.chatMessages ++
        [ { role := "user", text := stChat.chatInput }
        , { role := "assistant", text := "Error occurred" } ] ∧
     "Error occurred" ≠ "") :=
  ⟨by decide, rfl,
   c1_error_placeholder stChat bkTimeout "GenerationTimeoutError" (by decide) rfl⟩

/-- C2 counterexample: from a state holding a previously published issue list,
    selection and summary, a failed fetchRepo leaves issues cleared and the
    selection reset, not as they were before the invocation. -/
theorem c2_counterexample :
    stBlankInput.issues = [{ id := 1, title := "bug" }] ∧
    stBlankInput.selectedIssue = some 1 ∧
    (fetchRepo stBlankInput bkRepoErr).1.issues = [] ∧
    (fetchRepo stBlankInput bkRepoErr).1.selectedIssue = none ∧
    ¬ (fetchRepo stBlankInput bkRepoErr).1.issues = stBlankInput.issues ∧
    ¬ (fetchRepo stBlankInput bkRepoErr).1.selectedIssue = stBlankInput.selectedIssue := by
  decide

/-- C2 amended: on a fetchRepo invocation that ends in an error, the summary
    (and the rest of the state not touched by fetchRepo) is preserved, but the
    issue list and the selected issue, cleared before the backend call, end as
    [] and none rather than their prior values. -/
theorem c2_failed_fetch_state (st : AppState)
    (bk : ProcessRepoPayload → ProcessRepoResult) (msg : String)
    (hurl : ¬ jsTrim st.repoUrl = "")
    (hbk : bk { url := jsTrim st.repoUrl, model := st.selectedModel } = .err msg) :
    (fetchRepo st bk).1.summary = st.summary ∧
    (fetchRepo st bk).1.issues = [] ∧
    (fetchRepo st bk).1.selectedIssue = none ∧
    (fetchRepo st bk).1.chatMessages = st.chatMessages ∧
    (fetchRepo st bk).1.repoUrl = st.repoUrl ∧
    (fetchRepo st bk).1.selectedModel = st.selectedModel := by
  unfold fetchRepo
  rw [if_neg hurl, hbk]
  exact ⟨rfl, rfl, rfl, rfl, rfl, rfl⟩

/-- Witness for c2_failed_fetch_state at a concrete failing backend. -/
theorem c2_failed_fetch_state_witness :
    (¬ jsTrim stBlankInput.repoUrl = "") ∧
    bkRepoErr { url := jsTrim stBlankInput.repoUrl, model := stBlankInput.selectedModel } =
      .err "Network Error" ∧
    ((fetchRepo stBlankInput bkRepoErr).1.summary = stBlankInput.summary ∧
     (fetchRepo stBlankInput bkRepoErr).1.issues = [] ∧
     (fetchRepo stBlankInput bkRepoErr).1.selectedIssue = none ∧
     (fetchRepo stBlankInput bkRepoErr).1.chatMessages = stBlankInput.chatMessages ∧
     (fetchRepo stBlankInput bkRepoErr).1.repoUrl = stBlankInput.repoUrl ∧
     (fetchRepo stBlankInput bkRepoErr).1.selectedModel = stBlankInput.selectedModel) :=
  ⟨by decide, rfl,
   c2_failed_fetch_state stBlankInput bkRepoErr "Network Error" (by decide) rfl⟩

/-- C3 counterexample: the askAI payload of a concrete sendMessage call has
    exactly the fields issue_id, prompt and model, and none of its field names
    denotes a session or repository key. -/
theorem c3_counterexample :
    (sendMessage stChat bkOk).2 =
      some { issue_id := some 1, prompt := "why does it fail", model := "gemini" } ∧
    askAIFieldNames = ["issue_id", "prompt", "model"] ∧
    askAIFieldNames.all (fun f => ! isSessionKeyFieldName f) = true := by
  decide

/-- Any payload sendMessage actually sends is built from the calling state:
    the issue selection, the typed question and the selected model. -/
theorem sendMessage_payload_eq (st : AppState) (bk : AskAIPayload → AskAIResult)
    (p : AskAIPayload) (h : (sendMessage st bk).2 = some p) :
    p = { issue_id := st.selectedIssue, prompt := st.chatInput
        , model := st.selectedModel } := by
  rw [sendMessage_payload] at h
  by_cases hin : jsTrim st.chatInput = ""
  · rw [if_pos hin] at h
    exact absurd h (by simp)
  · rw [if_neg hin] at h
    exact (Option.some_inj.mp h).symm

/-- C3 amended: every payload passed to backend.askAI by sendMessage consists
    exactly of the issue selection, the question text and the selected model
    of the calling state; it carries no session or repository key, so the
    repository is ambient backend state rather than an argument. -/
theorem c3_askai_payload_fields (st : AppState) (bk : AskAIPayload → AskAIResult)
    (p : AskAIPayload) (h : (sendMessage st bk).2 = some p) :
    p = { issue_id := st.selectedIssue, prompt := st.chatInput
        , model := st.selectedModel } ∧
    askAIFieldNames.all (fun f => ! isSessionKeyFieldName f) = true :=
  ⟨sendMessage_payload_eq st bk p h, by decide⟩

/-- Witness for c3_askai_payload_fields at a concrete sendMessage call. -/
theorem c3_askai_payload_fields_witness :
    (sendMessage stChat bkOk).2 =
      some { issue_id := stChat.selectedIssue, prompt := stChat.chatInput
           , model := stChat.selectedModel } ∧
    ({ issue_id := some 1, prompt := "why does it fail", model := "gemini" : AskAIPayload } =
      { issue_id := stChat.selectedIssue, prompt := stChat.chatInput
      , model := stChat.selectedModel } ∧
     askAIFieldNames.all (fun f => ! isSessionKeyFieldName f) = true) :=
  ⟨by decide,
   c3_askai_payload_fields stChat bkOk
     { issue_id := some 1, prompt := "why does it fail", model := "gemini" } (by decide)⟩

/-- C4 counterexample: ingest with model "gemini" (the processRepo payload
    carries "gemini"), then change the selection to "groq" with no new
    ingestion; the next query dispatches with model "groq", not the model
    fixed at ingestion time. -/
theorem c4_counterexample :
    (fetchRepo stChat bkRepoOk).2 =
      some { url := "https://github.com/u/r", model := "gemini" } ∧
    (sendMessage (setSelectedModel (fetchRepo stChat bkRepoOk).1 "groq") bkOk).2 =
      some { issue_id := none, prompt := "why does it fail", model := "groq" } ∧
    ¬ ("groq" = "gemini") := by
  decide

/-- C4 amended: the generation backend used by a query is the model selected
    at query time, not the one fixed at ingestion: after setSelectedModel m,
    any payload sendMessage passes to backend.askAI carries model m, with no
    new ingestion required. -/
theorem c4_query_uses_current_model (st : AppState) (bk : AskAIPayload → AskAIResult)
    (m : String) (p : AskAIPayload)
    (h : (sendMessage (setSelectedModel st m) bk).2 = some p) :
    p.model = m := by
  have hp := sendMessage_payload_eq (setSelectedModel st m) bk p h
  rw [hp]
  rfl

/-- Witness for c4_query_uses_current_model at a concrete model switch. -/
theorem c4_query_uses_current_model_witness :
    (sendMessage (setSelectedModel stChat "groq") bkOk).2 =
      some { issue_id := some 1, prompt := "why does it fail", model := "groq" } ∧
    AskAIPayload.model
      { issue_id := some 1, prompt := "why does it fail", model := "groq" } = "groq" :=
  ⟨by decide,
   c4_query_uses_current_model stChat bkOk "groq"
     { issue_id := some 1, prompt := "why does it fail", model := "groq" } (by decide)⟩

/-- jsOrIssues agrees with Option.getD []. -/
theorem jsOrIssues_eq_getD (o : Option (List Issue)) : jsOrIssues o = o.getD [] := by
  cases o <;> rfl

/-- jsOrSummary agrees with Option.getD "". -/
theorem jsOrSummary_eq_getD (o : Option String) : jsOrSummary o = o.getD "" := by
  cases o with
  | none => rfl
  | some s =>
      by_cases h : s = "" <;> simp [jsOrSummary, h]

/-- C6: on a successful fetchRepo the published state equals the response
    fields: issues is the response issue list ([] when the field is absent)
    and summary is the response summary ("" when the field is absent) — in
    particular the summary is always a defined string. -/
theorem c6_publish_equals_response (st : AppState)
    (bk : ProcessRepoPayload → ProcessRepoResult) (data : ProcessRepoData)
    (hurl : ¬ jsTrim st.repoUrl = "")
    (hbk : bk { url := jsTrim st.repoUrl, model := st.selectedModel } = .ok data) :
    (fetchRepo st bk).1.issues = data.issues.getD [] ∧
    (fetchRepo st bk).1.summary = data.summary.getD "" := by
  have hfr : (fetchRepo st bk).1.issues = jsOrIssues data.issues ∧
      (fetchRepo st bk).1.summary = jsOrSummary data.summary := by
    unfold fetchRepo
    rw [if_neg hurl, hbk]
    exact ⟨rfl, rfl⟩
  exact ⟨hfr.1.trans (jsOrIssues_eq_getD data.issues),
         hfr.2.trans (jsOrSummary_eq_getD data.summary)⟩

/-- Witness for c6_publish_equals_response at a concrete successful response. -/
theorem c6_publish_equals_response_witness :
    (¬ jsTrim stBlankInput.repoUrl = "") ∧
    bkRepoOk { url := jsTrim stBlankInput.repoUrl, model := stBlankInput.selectedModel } =
      .ok { issues := some [{ id := 1, title := "bug" }], summary := some "a summary" } ∧
    ((fetchRepo stBlankInput bkRepoOk).1.issues =
      (some [{ id := 1, title := "bug" }] : Option (List Issue)).getD [] ∧
     (fetchRepo stBlankInput bkRepoOk).1.summary =
      (some "a summary" : Option String).getD "") :=
  ⟨by decide, rfl,
   c6_publish_equals_response stBlankInput bkRepoOk
     { issues := some [{ id := 1, title := "bug" }], summary := some "a summary" }
     (by decide) rfl⟩

/-- Invariant of the fetch-click machinery: never more than one call in
    flight, and nothing in flight whenever the button is enabled. -/
theorem fetchRun_invariant (s : FetchRunState) (h : FetchRun s) :
    s.inFlight ≤ 1 ∧ (s.loading = false → s.inFlight = 0) := by
  induction h with
  | init => exact ⟨by simp [fetchRunInit], fun _ => rfl⟩
  | next u t hu he ih =>
      cases he with
      | click hv =>
          have h0 : u.inFlight = 0 := ih.2 hv
          exact ⟨by simp [h0], by simp⟩
      | blankClick hv => exact ih
      | settle hv =>
          have h1 := ih.1
          constructor
          · show u.inFlight - 1 ≤ 1
            omega
          · intro _
            show u.inFlight - 1 = 0
            omega

/-- C5: at most one fetchRepo call is in progress at any time: the Fetch
    button is disabled while loading is true, so every reachable state of the
    Dialog fetch machinery has at most one invocation in flight. -/
theorem c5_at_most_one_fetch_in_flight (s : FetchRunState) (h : FetchRun s) :
    s.inFlight ≤ 1 :=
  (fetchRun_invariant s h).1

/-- Witness for c5_at_most_one_fetch_in_flight at a concrete reachable state:
    one click from the initial state puts exactly one call in flight. -/
theorem c5_at_most_one_fetch_in_flight_witness :
    FetchRunState.inFlight { loading := true, inFlight := 0 + 1 } ≤ 1 :=
  c5_at_most_one_fetch_in_flight { loading := true, inFlight := 0 + 1 }
    (FetchRun.next fetchRunInit _ FetchRun.init (FetchEvent.click fetchRunInit rfl))

/-- C7: both model selectors list exactly the two values "gemini" and "groq",
    and any value a click on either list can hand to onChange is one of the
    two. -/
theorem c7_two_model_options (i : Nat) (v : String)
    (h : selectClickValue dialogModelOptions i = some v ∨
         selectClickValue sidebarModelOptions i = some v) :
    (dialogModelOptions.map SelectOption.value = ["gemini", "groq"] ∧
     sidebarModelOptions.map SelectOption.value = ["gemini", "groq"]) ∧
    (v = "gemini" ∨ v = "groq") := by
  refine ⟨⟨rfl, rfl⟩, ?_⟩
  rcases h with h | h <;> rcases i with _ | _ | n <;>
    simp_all [selectClickValue, dialogModelOptions, sidebarModelOptions]

/-- Witness for c7_two_model_options at a concrete click on the first entry. -/
theorem c7_two_model_options_witness :
    (selectClickValue dialogModelOptions 0 = some "gemini" ∨
     selectClickValue sidebarModelOptions 0 = some "gemini") ∧
    ((dialogModelOptions.map SelectOption.value = ["gemini", "groq"] ∧
      sidebarModelOptions.map SelectOption.value = ["gemini", "groq"]) ∧
     ("gemini" = "gemini" ∨ "gemini" = "groq")) :=
  ⟨Or.inl rfl, c7_two_model_options 0 "gemini" (Or.inl rfl)⟩

/-- Every reachable currentStep value is a valid index into PROCESSING_STEPS. -/
theorem stepReachable_lt (n : Nat) (h : StepReachable n) :
    n < PROCESSING_STEPS.length := by
  induction h with
  | start => simp [PROCESSING_STEPS]
  | tick m hm ih =>
      have hlen : PROCESSING_STEPS.length = 7 := rfl
      unfold stepTick
      rw [hlen] at ih ⊢
      split <;> omega
  | reset m hm ih => simp [PROCESSING_STEPS]

/-- C10: at every point during and after a fetchRepo call the progress-step
    index is a valid index into the fixed step list: every reachable value of
    currentStep is below PROCESSING_STEPS.length, and the step displayed at
    that index is a defined string. -/
theorem c10_current_step_in_range (n : Nat) (h : StepReachable n) :
    n < PROCESSING_STEPS.length ∧ ∃ s, PROCESSING_STEPS.get? n = some s := by
  have hlt := stepReachable_lt n h
  exact ⟨hlt, PROCESSING_STEPS.get ⟨n, hlt⟩, List.get?_eq_get hlt⟩

/-- Witness for c10_current_step_in_range at a concrete reachable value: one
    tick after the initial 0. -/
theorem c10_current_step_in_range_witness :
    stepTick 0 < PROCESSING_STEPS.length ∧
    ∃ s, PROCESSING_STEPS.get? (stepTick 0) = some s :=
  c10_current_step_in_range (stepTick 0)
    (StepReachable.tick 0 StepReachable.start)

end DissolveAI
